import Mathlib

/-!
Shallow embedding of the validation logic in
`license_manager/apps/subscriptions/forms.py`.

Timestamps are modelled as integers, identifiers and messages as strings.
Nullable values are `Option`s.  Each Django form's `is_valid` method is
translated as a pure function from a record of the form's cleaned data and
instance attributes to an `Outcome`.  `super().is_valid()` (Django's base
field validation, which is not part of this repository's source) is modelled
from the spec as a boolean predicate on the form data.
-/

/-- Result of one `is_valid` invocation.  `reject` carries the single
(field, message) pair passed to `self.add_error` before the early `return
False`; `baseInvalid` is `super().is_valid()` returning `False`; `crash`
marks a Python attribute/type error on a missing relation. -/
inductive Outcome where
  | accept
  | reject (field : String) (message : String)
  | baseInvalid
  | crash
deriving DecidableEq, Repr

/-- Python falsiness of an optional string value (`not x` is true for
`None` and for the empty string). -/
def falsyOptStr : Option String → Bool
  | none => true
  | some s => s.isEmpty

/-- A plan type record (`Product.plan_type`): flags gating required-field
checks on dependent records. -/
structure PlanType where
  sf_id_required : Bool
  ns_id_required : Bool
deriving DecidableEq, Repr

/-- A product record.  `plan_type` is a reference; an unset reference is
`none` (dereferencing it in Python raises). -/
structure Product where
  plan_type : Option PlanType
deriving DecidableEq, Repr

/-- A subscription plan record, with the fields the forms read.  The
customer agreement is referenced by its key. -/
structure SubscriptionPlan where
  uuid : String
  title : String
  customer_agreement : Nat
  is_active : Bool
  start_date : Int
  expiration_date : Int
deriving DecidableEq, Repr

/-- A customer agreement record. -/
structure CustomerAgreement where
  id : Nat
  default_enterprise_catalog_uuid : Option String
  auto_applicable_subscription : Option SubscriptionPlan
deriving DecidableEq, Repr

/-- Cleaned data and instance attributes of a `SubscriptionPlanForm`
submission, as read by `SubscriptionPlanForm.is_valid`. -/
structure SubscriptionPlanFormData where
  /-- result of the parts of Django base validation not modelled below -/
  other_fields_valid : Bool
  /-- whether `'customer_agreement' in self.changed_data` -/
  customer_agreement_changed : Bool
  customer_agreement : Option CustomerAgreement
  enterprise_catalog_uuid : Option String
  num_licenses : Option Int
  for_internal_use_only : Bool
  is_revocation_cap_enabled : Bool
  revoke_max_percentage : Int
  product : Option Product
  salesforce_opportunity_id : Option String
deriving DecidableEq, Repr

/-- Modelled from the spec: `super().is_valid()` for `SubscriptionPlanForm`
(Django base field validation; `django.forms` and the model classes are not
in the source tree).  Per the form's field declaration, `num_licenses` is
required with `min_value=MIN_NUM_LICENSES`; per the spec's data model the
`customer_agreement` reference is required (only catalog uuid and Salesforce
id are nullable), so base validation guarantees it is present in
`cleaned_data`. -/
def SubscriptionPlanFormData.base_is_valid (MIN_NUM_LICENSES : Int)
    (f : SubscriptionPlanFormData) : Bool :=
  f.other_fields_valid
  && (match f.num_licenses with
      | some n => decide (MIN_NUM_LICENSES ≤ n)
      | none => false)
  && f.customer_agreement.isSome

/-- Rules 4 and 5 of `SubscriptionPlanForm.is_valid` (forms.py lines
88-104): missing product, then the Salesforce-ID requirement (note the
`is None` comparison: an empty string passes). -/
def product_check (f : SubscriptionPlanFormData) : Outcome :=
  match f.product with
  | none => .reject "product" "You must specify a product."
  | some product =>
    match product.plan_type with
    | none => .crash
    | some pt =>
      if pt.sf_id_required && f.salesforce_opportunity_id.isNone then
        .reject "salesforce_opportunity_id"
          "You must specify Salesforce ID for selected product."
      else .accept

/-- Rule 3 of `SubscriptionPlanForm.is_valid` (forms.py lines 83-86). -/
def revoke_percentage_check (f : SubscriptionPlanFormData) : Outcome :=
  if f.is_revocation_cap_enabled && decide (f.revoke_max_percentage > 100) then
    .reject "revoke_max_percentage" "Must be a valid percentage (0-100)."
  else product_check f

/-- Rule 2 of `SubscriptionPlanForm.is_valid` (forms.py lines 74-81);
`cleaned_data.get('num_licenses', 0)` defaults to 0. -/
def num_licenses_check (MAX_NUM_LICENSES : Int)
    (f : SubscriptionPlanFormData) : Outcome :=
  if decide (f.num_licenses.getD 0 > MAX_NUM_LICENSES)
      && !f.for_internal_use_only then
    .reject "num_licenses"
      ("Non-test subscriptions may not have more than "
        ++ toString MAX_NUM_LICENSES ++ " licenses")
  else revoke_percentage_check f

/-- Rule 1 of `SubscriptionPlanForm.is_valid` (forms.py lines 64-72):
only runs when the customer-agreement link changed on this submission;
dereferences the cleaned customer agreement (crash when absent). -/
def catalog_uuid_check (MAX_NUM_LICENSES : Int)
    (f : SubscriptionPlanFormData) : Outcome :=
  if f.customer_agreement_changed then
    match f.customer_agreement with
    | none => .crash
    | some agreement =>
      if falsyOptStr agreement.default_enterprise_catalog_uuid
          && falsyOptStr f.enterprise_catalog_uuid then
        .reject "enterprise_catalog_uuid"
          "The subscription must have an enterprise catalog uuid from itself or its customer agreement"
      else num_licenses_check MAX_NUM_LICENSES f
  else num_licenses_check MAX_NUM_LICENSES f

/-- `SubscriptionPlanForm.is_valid` (forms.py lines 57-104). -/
def SubscriptionPlanForm.is_valid (MIN_NUM_LICENSES MAX_NUM_LICENSES : Int)
    (f : SubscriptionPlanFormData) : Outcome :=
  if ¬ f.base_is_valid MIN_NUM_LICENSES then .baseInvalid
  else catalog_uuid_check MAX_NUM_LICENSES f

/-- Cleaned data and instance attributes of a `SubscriptionPlanRenewalForm`
submission, as read by `SubscriptionPlanRenewalForm.is_valid`. -/
structure RenewalFormData where
  /-- result of the parts of Django base validation not modelled below -/
  other_fields_valid : Bool
  effective_date : Option Int
  renewed_expiration_date : Option Int
  prior_subscription_plan : Option SubscriptionPlan
deriving DecidableEq, Repr

/-- Modelled from the spec: `super().is_valid()` for
`SubscriptionPlanRenewalForm` (Django base validation, not in the source
tree).  The dates and the `prior_subscription_plan` reference are required
fields of the renewal record per the spec's data model, so base validation
guarantees their presence. -/
def RenewalFormData.base_is_valid (f : RenewalFormData) : Bool :=
  f.other_fields_valid
  && f.effective_date.isSome
  && f.renewed_expiration_date.isSome
  && f.prior_subscription_plan.isSome

/-- Rule 3 of `SubscriptionPlanRenewalForm.is_valid` (forms.py lines
148-154): dereferences `self.instance.prior_subscription_plan`. -/
def prior_plan_check (f : RenewalFormData) (e : Int) : Outcome :=
  match f.prior_subscription_plan with
  | none => .crash
  | some subscription =>
    if e < subscription.expiration_date then
      .reject "effective_date"
        "A subscription renewal can not take effect before a subscription expires."
    else .accept

/-- Rule 2 of `SubscriptionPlanRenewalForm.is_valid` (forms.py lines
141-146): the `<` comparison raises when the cleaned value is `None`. -/
def renewed_expiration_check (f : RenewalFormData) (e : Int) : Outcome :=
  match f.renewed_expiration_date with
  | none => .crash
  | some r =>
    if r < e then
      .reject "renewed_expiration_date"
        "A subscription renewal can not expire before it becomes effective."
    else prior_plan_check f e

/-- `SubscriptionPlanRenewalForm.is_valid` (forms.py lines 123-156);
`now` is the value of `localized_utcnow()`. -/
def SubscriptionPlanRenewalForm.is_valid (now : Int)
    (f : RenewalFormData) : Outcome :=
  if ¬ f.base_is_valid then .baseInvalid
  else match f.effective_date with
  | none => .crash
  | some e =>
    if e < now then
      .reject "effective_date"
        "A subscription renewal can not be scheduled to become effective in the past."
    else renewed_expiration_check f e

/-- Instance attributes of a `ProductForm` submission, as read by
`ProductForm.is_valid`. -/
structure ProductFormData where
  /-- result of the parts of Django base validation not modelled below -/
  other_fields_valid : Bool
  plan_type : Option PlanType
  netsuite_id : Option String
deriving DecidableEq, Repr

/-- Modelled from the spec: `super().is_valid()` for `ProductForm` (Django
base validation, not in the source tree).  `plan_type` is a required
reference of the product record per the spec's data model, so base
validation guarantees its presence. -/
def ProductFormData.base_is_valid (f : ProductFormData) : Bool :=
  f.other_fields_valid && f.plan_type.isSome

/-- `ProductForm.is_valid` (forms.py lines 234-246).  Note the Python
falsiness test `not self.instance.netsuite_id`: the empty string counts as
absent, unlike the Salesforce-ID check. -/
def ProductForm.is_valid (f : ProductFormData) : Outcome :=
  if ¬ f.base_is_valid then .baseInvalid
  else match f.plan_type with
  | none => .crash
  | some pt =>
    if pt.ns_id_required && falsyOptStr f.netsuite_id then
      .reject "netsuite_id" "You must specify Netsuite ID for selected plan type."
    else .accept

/-- The choice field built by
`CustomerAgreementAdminForm.populate_subscription_for_auto_applied_licenses_choices`:
the options list and the pre-selected initial option. -/
structure ChoiceField where
  choices : List (String × String)
  initial : String × String
deriving DecidableEq, Repr

/-- The filter of forms.py lines 189-194: plans linked to the agreement,
active, with `start_date <= now <= expiration_date`. -/
def planMatchesAutoApplyFilter (inst : CustomerAgreement) (now : Int)
    (p : SubscriptionPlan) : Bool :=
  p.customer_agreement = inst.id && p.is_active
    && decide (p.start_date ≤ now) && decide (now ≤ p.expiration_date)

/-- `CustomerAgreementAdminForm.populate_subscription_for_auto_applied_licenses_choices`
(forms.py lines 183-205).  `plans` is the set of persisted subscription
plans the query ranges over. -/
def populate_subscription_for_auto_applied_licenses_choices
    (plans : List SubscriptionPlan) (inst : CustomerAgreement)
    (now : Int) : ChoiceField :=
  let active_plans := plans.filter (planMatchesAutoApplyFilter inst now)
  let current_plan := inst.auto_applicable_subscription
  let empty_choice := ("", "------")
  let choices := empty_choice :: active_plans.map (fun plan => (plan.uuid, plan.title))
  { choices := choices
    initial :=
      match current_plan with
      | none => empty_choice
      | some cp => (cp.uuid, cp.title) }

/-! ## The validators as ordered rule lists

The spec describes each validator as an ordered list of predicate+message
rules evaluated in a fixed sequence, stopping at the first rule that fires.
The predicates below restate each guard of the source as a pure boolean
(they are meaningful on inputs where the dereferenced relations are
present, which base validation guarantees). -/

/-- Guard of rule 1 of `SubscriptionPlanForm.is_valid`. -/
def catalogRuleFired (f : SubscriptionPlanFormData) : Bool :=
  f.customer_agreement_changed
  && (match f.customer_agreement with
      | none => true
      | some a => falsyOptStr a.default_enterprise_catalog_uuid)
  && falsyOptStr f.enterprise_catalog_uuid

/-- Guard of rule 2 of `SubscriptionPlanForm.is_valid`. -/
def numLicensesRuleFired (MAX_NUM_LICENSES : Int)
    (f : SubscriptionPlanFormData) : Bool :=
  decide (f.num_licenses.getD 0 > MAX_NUM_LICENSES) && !f.for_internal_use_only

/-- Guard of rule 3 of `SubscriptionPlanForm.is_valid`. -/
def revokeRuleFired (f : SubscriptionPlanFormData) : Bool :=
  f.is_revocation_cap_enabled && decide (f.revoke_max_percentage > 100)

/-- Guard of rule 4 of `SubscriptionPlanForm.is_valid`. -/
def productRuleFired (f : SubscriptionPlanFormData) : Bool :=
  f.product.isNone

/-- Guard of rule 5 of `SubscriptionPlanForm.is_valid`. -/
def sfRuleFired (f : SubscriptionPlanFormData) : Bool :=
  (match f.product with
   | none => false
   | some p =>
     match p.plan_type with
     | none => false
     | some pt => pt.sf_id_required)
  && f.salesforce_opportunity_id.isNone

/-- The documented rule order of `SubscriptionPlanForm.is_valid`, as
(guard, field, message) triples. -/
def subscriptionPlanRules (MAX_NUM_LICENSES : Int)
    (f : SubscriptionPlanFormData) : List (Bool × String × String) :=
  [ (catalogRuleFired f, "enterprise_catalog_uuid",
      "The subscription must have an enterprise catalog uuid from itself or its customer agreement"),
    (numLicensesRuleFired MAX_NUM_LICENSES f, "num_licenses",
      "Non-test subscriptions may not have more than "
        ++ toString MAX_NUM_LICENSES ++ " licenses"),
    (revokeRuleFired f, "revoke_max_percentage",
      "Must be a valid percentage (0-100)."),
    (productRuleFired f, "product", "You must specify a product."),
    (sfRuleFired f, "salesforce_opportunity_id",
      "You must specify Salesforce ID for selected product.") ]

/-- Guard of rule 1 of `SubscriptionPlanRenewalForm.is_valid`. -/
def effectivePastRuleFired (now : Int) (f : RenewalFormData) : Bool :=
  match f.effective_date with
  | none => false
  | some e => decide (e < now)

/-- Guard of rule 2 of `SubscriptionPlanRenewalForm.is_valid`. -/
def renewedBeforeEffectiveRuleFired (f : RenewalFormData) : Bool :=
  match f.effective_date, f.renewed_expiration_date with
  | some e, some r => decide (r < e)
  | _, _ => false

/-- Guard of rule 3 of `SubscriptionPlanRenewalForm.is_valid`. -/
def effectiveBeforePriorExpiryRuleFired (f : RenewalFormData) : Bool :=
  match f.effective_date, f.prior_subscription_plan with
  | some e, some subscription => decide (e < subscription.expiration_date)
  | _, _ => false

/-- The documented rule order of `SubscriptionPlanRenewalForm.is_valid`. -/
def renewalRules (now : Int) (f : RenewalFormData) :
    List (Bool × String × String) :=
  [ (effectivePastRuleFired now f, "effective_date",
      "A subscription renewal can not be scheduled to become effective in the past."),
    (renewedBeforeEffectiveRuleFired f, "renewed_expiration_date",
      "A subscription renewal can not expire before it becomes effective."),
    (effectiveBeforePriorExpiryRuleFired f, "effective_date",
      "A subscription renewal can not take effect before a subscription expires.") ]

/-- Evaluate an ordered rule list, stopping at the first rule whose guard
holds, and return its (field, message) pair if any. -/
def firstFiredRule : List (Bool × String × String) → Option (String × String)
  | [] => none
  | r :: rs => if r.1 then some r.2 else firstFiredRule rs

/-- The outcome an ordered short-circuit rule list prescribes. -/
def ruleListOutcome (rules : List (Bool × String × String)) : Outcome :=
  match firstFiredRule rules with
  | none => .accept
  | some fm => .reject fm.1 fm.2

/-! ## Claims -/

/-- C1: `SubscriptionPlanRenewalForm.is_valid` accepts iff
`now ≤ effective_date ≤ renewed_expiration_date` and
`prior_plan.expiration_date ≤ effective_date`; a violated inequality
rejects on the documented field, and when several are violated the
rejection is that of the earliest-listed rule (effective-date-in-the-past,
then renewed-expiration-before-effective, then
effective-before-prior-expiration). -/
theorem renewal_accepts_iff_dates_ordered (now : Int) (f : RenewalFormData)
    (e r : Int) (pp : SubscriptionPlan)
    (hbase : f.other_fields_valid = true)
    (he : f.effective_date = some e)
    (hr : f.renewed_expiration_date = some r)
    (hp : f.prior_subscription_plan = some pp) :
    (SubscriptionPlanRenewalForm.is_valid now f = .accept ↔
      (now ≤ e ∧ e ≤ r ∧ pp.expiration_date ≤ e)) ∧
    (e < now →
      SubscriptionPlanRenewalForm.is_valid now f =
        .reject "effective_date"
          "A subscription renewal can not be scheduled to become effective in the past.") ∧
    (now ≤ e → r < e →
      SubscriptionPlanRenewalForm.is_valid now f =
        .reject "renewed_expiration_date"
          "A subscription renewal can not expire before it becomes effective.") ∧
    (now ≤ e → e ≤ r → e < pp.expiration_date →
      SubscriptionPlanRenewalForm.is_valid now f =
        .reject "effective_date"
          "A subscription renewal can not take effect before a subscription expires.") := by
  have hb : f.base_is_valid = true := by
    unfold RenewalFormData.base_is_valid
    rw [hbase, he, hr, hp]
    rfl
  unfold SubscriptionPlanRenewalForm.is_valid renewed_expiration_check prior_plan_check
  rw [he, hr, hp]
  simp only [hb, not_true_eq_false, if_false]
  split_ifs with h1 h2 h3 <;> simp_all

/-- Witness for C1 at a concrete renewal whose dates are in order. -/
theorem renewal_accepts_iff_dates_ordered_witness :
    SubscriptionPlanRenewalForm.is_valid 100
      ⟨true, some 150, some 200, some ⟨"u", "t", 0, true, 0, 120⟩⟩ = .accept :=
  (renewal_accepts_iff_dates_ordered 100
      ⟨true, some 150, some 200, some ⟨"u", "t", 0, true, 0, 120⟩⟩
      150 200 ⟨"u", "t", 0, true, 0, 120⟩ rfl rfl rfl rfl).1.mpr (by decide)

/-- C7: `ProductForm.is_valid` rejects on `netsuite_id` iff
`plan_type.ns_id_required` is true and `netsuite_id` is empty or absent
(Python falsiness); otherwise it accepts. -/
theorem product_rejects_iff_netsuite_id_missing (f : ProductFormData)
    (pt : PlanType)
    (hbase : f.other_fields_valid = true)
    (hpt : f.plan_type = some pt) :
    (ProductForm.is_valid f =
        .reject "netsuite_id" "You must specify Netsuite ID for selected plan type."
      ↔ (pt.ns_id_required = true ∧ falsyOptStr f.netsuite_id = true)) ∧
    (¬ (pt.ns_id_required = true ∧ falsyOptStr f.netsuite_id = true) →
      ProductForm.is_valid f = .accept) := by
  have hb : f.base_is_valid = true := by
    unfold ProductFormData.base_is_valid
    rw [hbase, hpt]
    rfl
  unfold ProductForm.is_valid
  rw [hb, hpt]
  split_ifs with h <;> simp_all

/-- Witness for C7: a product whose plan type requires a NetSuite id and
whose `netsuite_id` is the empty string is rejected on `netsuite_id`. -/
theorem product_rejects_iff_netsuite_id_missing_witness :
    ProductForm.is_valid ⟨true, some ⟨false, true⟩, some ""⟩ =
      .reject "netsuite_id" "You must specify Netsuite ID for selected plan type." :=
  (product_rejects_iff_netsuite_id_missing ⟨true, some ⟨false, true⟩, some ""⟩
      ⟨false, true⟩ rfl rfl).1.mpr (by decide)

/-- With base validation passed (so the cleaned customer agreement is
present) and persisted products carrying a plan type,
`SubscriptionPlanForm.is_valid` computes exactly the outcome of the
ordered short-circuit rule list. -/
theorem planForm_eq_ruleList (MIN_NUM_LICENSES MAX_NUM_LICENSES : Int)
    (f : SubscriptionPlanFormData)
    (hbase : f.base_is_valid MIN_NUM_LICENSES = true)
    (a : CustomerAgreement) (ha : f.customer_agreement = some a)
    (hplan : ∀ p, f.product = some p → p.plan_type.isSome = true) :
    SubscriptionPlanForm.is_valid MIN_NUM_LICENSES MAX_NUM_LICENSES f =
      ruleListOutcome (subscriptionPlanRules MAX_NUM_LICENSES f) := by
  rcases hprod : f.product with _ | p
  · cases hchg : f.customer_agreement_changed <;>
      simp only [SubscriptionPlanForm.is_valid, catalog_uuid_check,
        num_licenses_check, revoke_percentage_check, product_check,
        ruleListOutcome, firstFiredRule, subscriptionPlanRules,
        catalogRuleFired, numLicensesRuleFired, revokeRuleFired,
        productRuleFired, sfRuleFired, hbase, ha, hprod, hchg] <;>
      split_ifs <;> simp_all
  · have hsome : p.plan_type.isSome = true := hplan p hprod
    obtain ⟨pt, hpt⟩ := Option.isSome_iff_exists.mp hsome
    cases hchg : f.customer_agreement_changed <;>
      simp only [SubscriptionPlanForm.is_valid, catalog_uuid_check,
        num_licenses_check, revoke_percentage_check, product_check,
        ruleListOutcome, firstFiredRule, subscriptionPlanRules,
        catalogRuleFired, numLicensesRuleFired, revokeRuleFired,
        productRuleFired, sfRuleFired, hbase, ha, hprod, hchg, hpt] <;>
      split_ifs <;> simp_all

/-- With base validation passed (so dates and the prior plan are present),
`SubscriptionPlanRenewalForm.is_valid` computes exactly the outcome of the
ordered short-circuit rule list. -/
theorem renewal_eq_ruleList (now : Int) (f : RenewalFormData)
    (hbase : f.base_is_valid = true) :
    SubscriptionPlanRenewalForm.is_valid now f =
      ruleListOutcome (renewalRules now f) := by
  have h := hbase
  unfold RenewalFormData.base_is_valid at h
  simp only [Bool.and_eq_true, Option.isSome_iff_exists] at h
  obtain ⟨⟨⟨-, e, he⟩, r, hr⟩, pp, hp⟩ := h
  unfold SubscriptionPlanRenewalForm.is_valid renewed_expiration_check
    prior_plan_check ruleListOutcome firstFiredRule renewalRules
    effectivePastRuleFired renewedBeforeEffectiveRuleFired
    effectiveBeforePriorExpiryRuleFired
  rw [hbase, he, hr, hp]
  simp only [firstFiredRule]
  split_ifs <;> simp_all <;> omega

/-- C8: each validator evaluates its business rules in the fixed documented
order and stops at the first failing rule: its outcome is exactly that of
the ordered short-circuit rule list, so at most one (field, message)
rejection is produced per invocation, namely that of the earliest failing
rule, and no later rule's rejection is ever reported together with an
earlier one. -/
theorem validators_stop_at_first_failing_rule
    (MIN_NUM_LICENSES MAX_NUM_LICENSES now : Int)
    (f : SubscriptionPlanFormData) (g : RenewalFormData)
    (a : CustomerAgreement) (ha : f.customer_agreement = some a)
    (hbf : f.base_is_valid MIN_NUM_LICENSES = true)
    (hplan : ∀ p, f.product = some p → p.plan_type.isSome = true)
    (hbg : g.base_is_valid = true) :
    SubscriptionPlanForm.is_valid MIN_NUM_LICENSES MAX_NUM_LICENSES f =
      ruleListOutcome (subscriptionPlanRules MAX_NUM_LICENSES f) ∧
    SubscriptionPlanRenewalForm.is_valid now g =
      ruleListOutcome (renewalRules now g) :=
  ⟨planForm_eq_ruleList MIN_NUM_LICENSES MAX_NUM_LICENSES f hbf a ha hplan,
   renewal_eq_ruleList now g hbg⟩

/-- Witness for C8 at concrete form data: a plan submission violating both
the license cap and the revocation cap is rejected by the earlier rule
(`num_licenses`), and a renewal violating rules 1 and 2 simultaneously is
rejected on `effective_date`. -/
theorem validators_stop_at_first_failing_rule_witness :
    (SubscriptionPlanForm.is_valid 1 1000
        ⟨true, false, some ⟨7, some "cat", none⟩, none, some 2000, false, true,
          500, some ⟨some ⟨false, false⟩⟩, none⟩ =
      ruleListOutcome (subscriptionPlanRules 1000
        ⟨true, false, some ⟨7, some "cat", none⟩, none, some 2000, false, true,
          500, some ⟨some ⟨false, false⟩⟩, none⟩) ∧
     SubscriptionPlanRenewalForm.is_valid 100
        ⟨true, some 50, some 40, some ⟨"u", "t", 7, true, 0, 60⟩⟩ =
      ruleListOutcome (renewalRules 100
        ⟨true, some 50, some 40, some ⟨"u", "t", 7, true, 0, 60⟩⟩)) ∧
    SubscriptionPlanForm.is_valid 1 1000
        ⟨true, false, some ⟨7, some "cat", none⟩, none, some 2000, false, true,
          500, some ⟨some ⟨false, false⟩⟩, none⟩ =
      .reject "num_licenses"
        "Non-test subscriptions may not have more than 1000 licenses" ∧
    SubscriptionPlanRenewalForm.is_valid 100
        ⟨true, some 50, some 40, some ⟨"u", "t", 7, true, 0, 60⟩⟩ =
      .reject "effective_date"
        "A subscription renewal can not be scheduled to become effective in the past." :=
  ⟨validators_stop_at_first_failing_rule 1 1000 100
      ⟨true, false, some ⟨7, some "cat", none⟩, none, some 2000, false, true,
        500, some ⟨some ⟨false, false⟩⟩, none⟩
      ⟨true, some 50, some 40, some ⟨"u", "t", 7, true, 0, 60⟩⟩
      ⟨7, some "cat", none⟩ rfl (by decide)
      (fun p hp => by cases hp; rfl) (by decide),
   by decide, by decide⟩

/-- The rules-3-to-5 chain of `SubscriptionPlanForm.is_valid` never
rejects on the `num_licenses` field. -/
theorem revoke_chain_no_num_licenses_reject (f : SubscriptionPlanFormData)
    (m : String) : revoke_percentage_check f ≠ .reject "num_licenses" m := by
  rcases hp : f.product with _ | p
  · unfold revoke_percentage_check product_check
    rw [hp]
    split_ifs <;> simp
  · rcases hq : p.plan_type with _ | pt <;>
      (unfold revoke_percentage_check product_check; simp only [hp, hq]) <;>
      split_ifs <;> simp

/-- With rule 1 passing, `SubscriptionPlanForm.is_valid` reduces to the
rule-2 check. -/
theorem planForm_reduces_to_num_check
    (MIN_NUM_LICENSES MAX_NUM_LICENSES : Int) (f : SubscriptionPlanFormData)
    (a : CustomerAgreement) (ha : f.customer_agreement = some a)
    (hbase : f.base_is_valid MIN_NUM_LICENSES = true)
    (hcat : catalogRuleFired f = false) :
    SubscriptionPlanForm.is_valid MIN_NUM_LICENSES MAX_NUM_LICENSES f =
      num_licenses_check MAX_NUM_LICENSES f := by
  unfold catalogRuleFired at hcat
  rw [ha] at hcat
  unfold SubscriptionPlanForm.is_valid catalog_uuid_check
  rw [ha, hbase]
  cases hchg : f.customer_agreement_changed <;> simp_all

/-- C2: for a candidate passing the enterprise-catalog-uuid rule, with
`for_internal_use_only = false` the validator rejects on `num_licenses`
iff `num_licenses > MAX_NUM_LICENSES`; with `for_internal_use_only = true`
such a candidate is not rejected on `num_licenses` and proceeds to the
next rule (the rules-3-to-5 chain). -/
theorem plan_num_licenses_cap (MIN_NUM_LICENSES MAX_NUM_LICENSES : Int)
    (f : SubscriptionPlanFormData)
    (a : CustomerAgreement) (ha : f.customer_agreement = some a)
    (hbase : f.base_is_valid MIN_NUM_LICENSES = true)
    (hcat : catalogRuleFired f = false) :
    (f.for_internal_use_only = false →
      (SubscriptionPlanForm.is_valid MIN_NUM_LICENSES MAX_NUM_LICENSES f =
          .reject "num_licenses"
            ("Non-test subscriptions may not have more than "
              ++ toString MAX_NUM_LICENSES ++ " licenses")
        ↔ f.num_licenses.getD 0 > MAX_NUM_LICENSES) ∧
      (∀ m, SubscriptionPlanForm.is_valid MIN_NUM_LICENSES MAX_NUM_LICENSES f =
          .reject "num_licenses" m → f.num_licenses.getD 0 > MAX_NUM_LICENSES)) ∧
    (f.for_internal_use_only = true →
      (∀ m, SubscriptionPlanForm.is_valid MIN_NUM_LICENSES MAX_NUM_LICENSES f ≠
          .reject "num_licenses" m) ∧
      SubscriptionPlanForm.is_valid MIN_NUM_LICENSES MAX_NUM_LICENSES f =
        revoke_percentage_check f) := by
  have hval := planForm_reduces_to_num_check MIN_NUM_LICENSES MAX_NUM_LICENSES
    f a ha hbase hcat
  rw [hval]
  constructor
  · intro hint
    constructor
    · unfold num_licenses_check
      rw [hint]
      split_ifs with h
      · simp_all
      · simp_all [revoke_chain_no_num_licenses_reject f]
    · intro m hm
      unfold num_licenses_check at hm
      split_ifs at hm with h
      · simp only [Bool.and_eq_true, decide_eq_true_eq] at h
        exact h.1
      · exact absurd hm (revoke_chain_no_num_licenses_reject f m)
  · intro hint
    have hnc : num_licenses_check MAX_NUM_LICENSES f =
        revoke_percentage_check f := by
      unfold num_licenses_check
      rw [hint]
      simp
    rw [hnc]
    exact ⟨fun m => revoke_chain_no_num_licenses_reject f m, rfl⟩

/-- Witness for C2: a non-internal plan with one license over the cap is
rejected on `num_licenses`. -/
theorem plan_num_licenses_cap_witness :
    SubscriptionPlanForm.is_valid 1 1000
      ⟨true, false, some ⟨3, some "cat", none⟩, none, some 1001, false, false,
        0, some ⟨some ⟨false, false⟩⟩, none⟩ =
      .reject "num_licenses"
        "Non-test subscriptions may not have more than 1000 licenses" :=
  ((plan_num_licenses_cap 1 1000
      ⟨true, false, some ⟨3, some "cat", none⟩, none, some 1001, false, false,
        0, some ⟨some ⟨false, false⟩⟩, none⟩
      ⟨3, some "cat", none⟩ rfl (by decide) (by decide)).1 rfl).1.mpr (by decide)

/-- The rules-4-and-5 chain only ever rejects on `product` or
`salesforce_opportunity_id`. -/
theorem product_check_reject_fields (f : SubscriptionPlanFormData)
    (fld m : String) (h : product_check f = .reject fld m) :
    fld = "product" ∨ fld = "salesforce_opportunity_id" := by
  unfold product_check at h
  rcases hp : f.product with _ | p <;> simp only [hp] at h
  · simp at h
    exact Or.inl h.1.symm
  · rcases hq : p.plan_type with _ | pt <;> simp only [hq] at h
    · simp at h
    · split_ifs at h <;> simp at h
      exact Or.inr h.1.symm

/-- A `revoke_max_percentage` rejection can only come from rule 3, so it
implies the cap is enabled and the percentage exceeds 100. -/
theorem planForm_reject_revoke_inv (MIN_NUM_LICENSES MAX_NUM_LICENSES : Int)
    (g : SubscriptionPlanFormData) (m : String)
    (h : SubscriptionPlanForm.is_valid MIN_NUM_LICENSES MAX_NUM_LICENSES g =
      .reject "revoke_max_percentage" m) :
    g.is_revocation_cap_enabled = true ∧ g.revoke_max_percentage > 100 := by
  by_cases hcap : (g.is_revocation_cap_enabled
      && decide (g.revoke_max_percentage > 100)) = true
  · simp only [Bool.and_eq_true, decide_eq_true_eq] at hcap
    exact hcap
  · exfalso
    unfold SubscriptionPlanForm.is_valid catalog_uuid_check num_licenses_check
      revoke_percentage_check product_check at h
    rcases hb : g.customer_agreement with _ | b <;>
      rcases hp : g.product with _ | p <;>
      (try rcases hq : p.plan_type with _ | pt) <;>
      simp only [hb, hp] at h <;>
      (try simp only [hq] at h) <;>
      split_ifs at h <;> simp_all

/-- C3: with the revocation cap enabled and the preceding two rules
passing, the validator rejects on `revoke_max_percentage` iff the value
exceeds 100; and no candidate whose value is at most 100 (in particular
any value in [0,100], and any negative value) is ever rejected on this
field by any invocation. -/
theorem plan_revoke_percentage_rule (MIN_NUM_LICENSES MAX_NUM_LICENSES : Int)
    (f : SubscriptionPlanFormData)
    (a : CustomerAgreement) (ha : f.customer_agreement = some a)
    (hbase : f.base_is_valid MIN_NUM_LICENSES = true)
    (hcat : catalogRuleFired f = false)
    (hnum : numLicensesRuleFired MAX_NUM_LICENSES f = false)
    (hcap : f.is_revocation_cap_enabled = true) :
    (SubscriptionPlanForm.is_valid MIN_NUM_LICENSES MAX_NUM_LICENSES f =
        .reject "revoke_max_percentage" "Must be a valid percentage (0-100)."
      ↔ f.revoke_max_percentage > 100) ∧
    (∀ (g : SubscriptionPlanFormData) (m1 m2 : Int) (m : String),
      g.revoke_max_percentage ≤ 100 →
      SubscriptionPlanForm.is_valid m1 m2 g ≠ .reject "revoke_max_percentage" m) := by
  constructor
  · have hval := planForm_reduces_to_num_check MIN_NUM_LICENSES MAX_NUM_LICENSES
      f a ha hbase hcat
    rw [hval]
    unfold numLicensesRuleFired at hnum
    unfold num_licenses_check
    rw [hnum]
    simp only [if_false, Bool.false_eq_true]
    unfold revoke_percentage_check
    rw [hcap]
    simp only [Bool.true_and]
    split_ifs with hgt
    · simp_all
    · constructor
      · intro h
        rcases product_check_reject_fields f _ _ h with h1 | h1 <;> simp at h1
      · intro h
        simp at hgt
        omega
  · intro g m1 m2 m hle h
    have hinv := planForm_reject_revoke_inv m1 m2 g m h
    omega

/-- Witness for C3: a plan with the cap enabled and percentage 150 is
rejected on `revoke_max_percentage`. -/
theorem plan_revoke_percentage_rule_witness :
    SubscriptionPlanForm.is_valid 1 1000
      ⟨true, false, some ⟨3, some "cat", none⟩, none, some 10, false, true,
        150, some ⟨some ⟨false, false⟩⟩, none⟩ =
      .reject "revoke_max_percentage" "Must be a valid percentage (0-100)." :=
  ((plan_revoke_percentage_rule 1 1000
      ⟨true, false, some ⟨3, some "cat", none⟩, none, some 10, false, true,
        150, some ⟨some ⟨false, false⟩⟩, none⟩
      ⟨3, some "cat", none⟩ rfl (by decide) (by decide) (by decide)
      rfl).1).mpr (by decide)

/-- Once base validation passed, `SubscriptionPlanForm.is_valid` is the
rule-1 check. -/
theorem planForm_base_pass (MIN_NUM_LICENSES MAX_NUM_LICENSES : Int)
    (f : SubscriptionPlanFormData)
    (hbase : f.base_is_valid MIN_NUM_LICENSES = true) :
    SubscriptionPlanForm.is_valid MIN_NUM_LICENSES MAX_NUM_LICENSES f =
      catalog_uuid_check MAX_NUM_LICENSES f := by
  unfold SubscriptionPlanForm.is_valid
  rw [hbase]
  simp

/-- The rules-2-to-5 chain of `SubscriptionPlanForm.is_valid` never
rejects on the `enterprise_catalog_uuid` field. -/
theorem num_check_no_catalog_reject (MAX_NUM_LICENSES : Int)
    (f : SubscriptionPlanFormData) (m : String) :
    num_licenses_check MAX_NUM_LICENSES f ≠ .reject "enterprise_catalog_uuid" m := by
  unfold num_licenses_check revoke_percentage_check product_check
  rcases hp : f.product with _ | p <;>
    (try rcases hq : p.plan_type with _ | pt) <;>
    simp only [hp] <;> (try simp only [hq]) <;>
    split_ifs <;> simp

/-- C6: when the customer-agreement link changed on this submission, the
validator rejects on `enterprise_catalog_uuid` iff the candidate supplies
no catalog uuid of its own and the linked agreement has no default one
(absent or empty, per Python falsiness); when the link did not change,
no invocation rejects on this field. -/
theorem plan_catalog_uuid_rule (MIN_NUM_LICENSES MAX_NUM_LICENSES : Int)
    (f : SubscriptionPlanFormData)
    (a : CustomerAgreement) (ha : f.customer_agreement = some a)
    (hbase : f.base_is_valid MIN_NUM_LICENSES = true) :
    (f.customer_agreement_changed = true →
      (SubscriptionPlanForm.is_valid MIN_NUM_LICENSES MAX_NUM_LICENSES f =
          .reject "enterprise_catalog_uuid"
            "The subscription must have an enterprise catalog uuid from itself or its customer agreement"
        ↔ (falsyOptStr a.default_enterprise_catalog_uuid = true ∧
            falsyOptStr f.enterprise_catalog_uuid = true))) ∧
    (f.customer_agreement_changed = false →
      ∀ m, SubscriptionPlanForm.is_valid MIN_NUM_LICENSES MAX_NUM_LICENSES f ≠
        .reject "enterprise_catalog_uuid" m) ∧
    (∀ m, SubscriptionPlanForm.is_valid MIN_NUM_LICENSES MAX_NUM_LICENSES f =
        .reject "enterprise_catalog_uuid" m →
      f.customer_agreement_changed = true ∧
      falsyOptStr a.default_enterprise_catalog_uuid = true ∧
      falsyOptStr f.enterprise_catalog_uuid = true) := by
  have hv := planForm_base_pass MIN_NUM_LICENSES MAX_NUM_LICENSES f hbase
  refine ⟨?_, ?_, ?_⟩
  · intro hchg
    rw [hv]
    unfold catalog_uuid_check
    rw [hchg, ha]
    simp only [if_true]
    split_ifs with hg
    · simp only [Bool.and_eq_true] at hg
      exact iff_of_true rfl hg
    · simp only [Bool.and_eq_true] at hg
      exact iff_of_false
        (num_check_no_catalog_reject MAX_NUM_LICENSES f _) hg
  · intro hchg m
    rw [hv]
    unfold catalog_uuid_check
    rw [hchg]
    simp only [Bool.false_eq_true, if_false]
    exact num_check_no_catalog_reject MAX_NUM_LICENSES f m
  · intro m h
    rw [hv] at h
    unfold catalog_uuid_check at h
    cases hchg : f.customer_agreement_changed
    · rw [hchg] at h
      simp only [Bool.false_eq_true, if_false] at h
      exact absurd h (num_check_no_catalog_reject MAX_NUM_LICENSES f m)
    · rw [hchg, ha] at h
      simp only [if_true] at h
      split_ifs at h with hg
      · simp only [Bool.and_eq_true] at hg
        exact ⟨rfl, hg.1, hg.2⟩
      · exact absurd h (num_check_no_catalog_reject MAX_NUM_LICENSES f m)

/-- Witness for C6: a submission that just linked an agreement having no
default catalog uuid, and supplies none itself, is rejected on
`enterprise_catalog_uuid`. -/
theorem plan_catalog_uuid_rule_witness :
    SubscriptionPlanForm.is_valid 1 1000
      ⟨true, true, some ⟨3, none, none⟩, none, some 10, false, false,
        0, some ⟨some ⟨false, false⟩⟩, none⟩ =
      .reject "enterprise_catalog_uuid"
        "The subscription must have an enterprise catalog uuid from itself or its customer agreement" :=
  ((plan_catalog_uuid_rule 1 1000
      ⟨true, true, some ⟨3, none, none⟩, none, some 10, false, false,
        0, some ⟨some ⟨false, false⟩⟩, none⟩
      ⟨3, none, none⟩ rfl (by decide)).1 rfl).mpr (by decide)

/-- C10: the Salesforce-ID rule compares with `is None`, so a present but
empty-string `salesforce_opportunity_id` passes the check and the plan
candidate reaching rule 5 is accepted, while the NetSuite-ID check on
products uses Python falsiness and rejects an empty-string `netsuite_id`. -/
theorem sf_none_check_vs_ns_falsy_check (MIN_NUM_LICENSES MAX_NUM_LICENSES : Int)
    (f : SubscriptionPlanFormData) (a : CustomerAgreement) (s : String)
    (pr : Product) (pt : PlanType)
    (ha : f.customer_agreement = some a)
    (hbase : f.base_is_valid MIN_NUM_LICENSES = true)
    (hcat : catalogRuleFired f = false)
    (hnum : numLicensesRuleFired MAX_NUM_LICENSES f = false)
    (hrev : revokeRuleFired f = false)
    (hp : f.product = some pr) (hq : pr.plan_type = some pt)
    (hsf : pt.sf_id_required = true)
    (hs : f.salesforce_opportunity_id = some s)
    (g : ProductFormData) (qt : PlanType)
    (hg : g.other_fields_valid = true) (hqt : g.plan_type = some qt)
    (hns : qt.ns_id_required = true) (hempty : g.netsuite_id = some "") :
    SubscriptionPlanForm.is_valid MIN_NUM_LICENSES MAX_NUM_LICENSES f = .accept ∧
    ProductForm.is_valid g =
      .reject "netsuite_id" "You must specify Netsuite ID for selected plan type." := by
  constructor
  · have hval := planForm_reduces_to_num_check MIN_NUM_LICENSES MAX_NUM_LICENSES
      f a ha hbase hcat
    rw [hval]
    unfold numLicensesRuleFired at hnum
    unfold revokeRuleFired at hrev
    unfold num_licenses_check
    rw [hnum]
    simp only [Bool.false_eq_true, if_false]
    unfold revoke_percentage_check
    rw [hrev]
    simp only [Bool.false_eq_true, if_false]
    unfold product_check
    rw [hp]
    simp only [hq, hs]
    simp
  · have hb : g.base_is_valid = true := by
      unfold ProductFormData.base_is_valid
      rw [hg, hqt]
      rfl
    unfold ProductForm.is_valid
    rw [hb]
    simp [hqt, hns, hempty, falsyOptStr]
    rfl

/-- Witness for C10: the same empty string is accepted as a Salesforce id
and rejected as a NetSuite id. -/
theorem sf_none_check_vs_ns_falsy_check_witness :
    SubscriptionPlanForm.is_valid 1 1000
      ⟨true, false, some ⟨3, some "cat", none⟩, none, some 10, false, false,
        0, some ⟨some ⟨true, false⟩⟩, some ""⟩ = .accept ∧
    ProductForm.is_valid ⟨true, some ⟨true, true⟩, some ""⟩ =
      .reject "netsuite_id" "You must specify Netsuite ID for selected plan type." :=
  sf_none_check_vs_ns_falsy_check 1 1000
    ⟨true, false, some ⟨3, some "cat", none⟩, none, some 10, false, false,
      0, some ⟨some ⟨true, false⟩⟩, some ""⟩
    ⟨3, some "cat", none⟩ "" ⟨some ⟨true, false⟩⟩ ⟨true, false⟩
    rfl (by decide) (by decide) (by decide) (by decide) rfl rfl rfl rfl
    ⟨true, some ⟨true, true⟩, some ""⟩ ⟨true, true⟩ rfl rfl rfl rfl

/-- C9: every accepted subscription-plan candidate has
`num_licenses ≥ MIN_NUM_LICENSES`; a candidate whose `num_licenses` is
below the configured minimum (or absent) is stopped by base field
validation before any business rule runs. -/
theorem plan_min_licenses_enforced (MIN_NUM_LICENSES MAX_NUM_LICENSES : Int)
    (f : SubscriptionPlanFormData) :
    (SubscriptionPlanForm.is_valid MIN_NUM_LICENSES MAX_NUM_LICENSES f = .accept →
      ∃ n, f.num_licenses = some n ∧ MIN_NUM_LICENSES ≤ n) ∧
    (∀ n, f.num_licenses = some n → n < MIN_NUM_LICENSES →
      SubscriptionPlanForm.is_valid MIN_NUM_LICENSES MAX_NUM_LICENSES f = .baseInvalid) ∧
    (f.num_licenses = none →
      SubscriptionPlanForm.is_valid MIN_NUM_LICENSES MAX_NUM_LICENSES f = .baseInvalid) := by
  refine ⟨?_, ?_, ?_⟩
  · intro h
    by_cases hb : f.base_is_valid MIN_NUM_LICENSES = true
    · unfold SubscriptionPlanFormData.base_is_valid at hb
      simp only [Bool.and_eq_true] at hb
      rcases hn : f.num_licenses with _ | n <;> rw [hn] at hb
      · simp at hb
      · exact ⟨n, rfl, by simpa using hb.1.2⟩
    · unfold SubscriptionPlanForm.is_valid at h
      rw [if_pos hb] at h
      exact absurd h (by decide)
  · intro n hn hlt
    unfold SubscriptionPlanForm.is_valid
    have hb : f.base_is_valid MIN_NUM_LICENSES = false := by
      unfold SubscriptionPlanFormData.base_is_valid
      simp only [hn]
      have hd : decide (MIN_NUM_LICENSES ≤ n) = false := by
        simp only [decide_eq_false_iff_not]
        omega
      rw [hd]
      simp
    rw [hb]
    simp
  · intro hn
    unfold SubscriptionPlanForm.is_valid
    have hb : f.base_is_valid MIN_NUM_LICENSES = false := by
      unfold SubscriptionPlanFormData.base_is_valid
      simp [hn]
    rw [hb]
    simp

/-- Witness for C9: a candidate with zero licenses (below a minimum of 1)
is stopped by base validation. -/
theorem plan_min_licenses_enforced_witness :
    SubscriptionPlanForm.is_valid 1 1000
      ⟨true, false, some ⟨3, some "cat", none⟩, none, some 0, false, false,
        0, some ⟨some ⟨false, false⟩⟩, none⟩ = .baseInvalid :=
  (plan_min_licenses_enforced 1 1000
      ⟨true, false, some ⟨3, some "cat", none⟩, none, some 0, false, false,
        0, some ⟨some ⟨false, false⟩⟩, none⟩).2.1 0 rfl (by decide)

/-- An ordered rule list yields only accept or a rejection, never a
crash. -/
theorem ruleListOutcome_no_crash (rules : List (Bool × String × String)) :
    ruleListOutcome rules ≠ .crash := by
  unfold ruleListOutcome
  rcases firstFiredRule rules with _ | fm <;> simp

/-- C4: no validator invocation whose base field validation passed (with
persisted products carrying a plan type) reaches a crashing dereference:
every outcome is an acceptance or a (field, message) rejection.  A missing
required relation is reported as a rejection instead: an absent cleaned
customer agreement, prior subscription plan or plan type is stopped by
base field validation, and an absent (nullable) product is reported as a
(field, message) rejection by the business rules. -/
theorem validators_never_crash (MIN_NUM_LICENSES MAX_NUM_LICENSES now : Int)
    (f : SubscriptionPlanFormData) (g : RenewalFormData) (p : ProductFormData)
    (hbf : f.base_is_valid MIN_NUM_LICENSES = true)
    (hplan : ∀ pr, f.product = some pr → pr.plan_type.isSome = true)
    (hbg : g.base_is_valid = true)
    (hbp : p.base_is_valid = true) :
    SubscriptionPlanForm.is_valid MIN_NUM_LICENSES MAX_NUM_LICENSES f ≠ .crash ∧
    SubscriptionPlanRenewalForm.is_valid now g ≠ .crash ∧
    ProductForm.is_valid p ≠ .crash ∧
    (f.product = none →
      ∃ fld m, SubscriptionPlanForm.is_valid MIN_NUM_LICENSES MAX_NUM_LICENSES f =
        .reject fld m) ∧
    (∀ f2 : SubscriptionPlanFormData, f2.customer_agreement = none →
      SubscriptionPlanForm.is_valid MIN_NUM_LICENSES MAX_NUM_LICENSES f2 = .baseInvalid) ∧
    (∀ g2 : RenewalFormData, g2.prior_subscription_plan = none →
      SubscriptionPlanRenewalForm.is_valid now g2 = .baseInvalid) ∧
    (∀ p2 : ProductFormData, p2.plan_type = none →
      ProductForm.is_valid p2 = .baseInvalid) := by
  have hca := hbf
  unfold SubscriptionPlanFormData.base_is_valid at hca
  simp only [Bool.and_eq_true, Option.isSome_iff_exists] at hca
  obtain ⟨-, a, ha⟩ := hca
  have hbridge := planForm_eq_ruleList MIN_NUM_LICENSES MAX_NUM_LICENSES
    f hbf a ha hplan
  refine ⟨?_, ?_, ?_, ?_, ?_, ?_, ?_⟩
  · rw [hbridge]
    exact ruleListOutcome_no_crash _
  · rw [renewal_eq_ruleList now g hbg]
    exact ruleListOutcome_no_crash _
  · have h := hbp
    unfold ProductFormData.base_is_valid at h
    simp only [Bool.and_eq_true, Option.isSome_iff_exists] at h
    obtain ⟨-, qt, hqt⟩ := h
    unfold ProductForm.is_valid
    rw [hbp]
    simp only [hqt]
    split_ifs <;> simp
  · intro hpn
    rw [hbridge]
    unfold ruleListOutcome subscriptionPlanRules
    have hfired : productRuleFired f = true := by
      unfold productRuleFired
      rw [hpn]
      rfl
    simp only [firstFiredRule]
    split_ifs <;> first
      | exact ⟨_, _, rfl⟩
      | simp_all
  · intro f2 hn
    unfold SubscriptionPlanForm.is_valid
    have hb : f2.base_is_valid MIN_NUM_LICENSES = false := by
      unfold SubscriptionPlanFormData.base_is_valid
      rw [hn]
      simp
    rw [hb]
    simp
  · intro g2 hn
    unfold SubscriptionPlanRenewalForm.is_valid
    have hb : g2.base_is_valid = false := by
      unfold RenewalFormData.base_is_valid
      rw [hn]
      simp
    rw [hb]
    simp
  · intro p2 hn
    unfold ProductForm.is_valid
    have hb : p2.base_is_valid = false := by
      unfold ProductFormData.base_is_valid
      rw [hn]
      simp
    rw [hb]
    simp

/-- Witness for C4 at concrete data: a plan submission with no product
selected is rejected, not crashed, and a renewal missing its prior plan is
stopped by base validation. -/
theorem validators_never_crash_witness :
    SubscriptionPlanForm.is_valid 1 1000
      ⟨true, false, some ⟨3, some "cat", none⟩, none, some 10, false, false,
        0, none, none⟩ ≠ .crash ∧
    (∃ fld m, SubscriptionPlanForm.is_valid 1 1000
      ⟨true, false, some ⟨3, some "cat", none⟩, none, some 10, false, false,
        0, none, none⟩ = .reject fld m) ∧
    SubscriptionPlanRenewalForm.is_valid 0 ⟨true, some 5, some 9, none⟩ =
      .baseInvalid := by
  have h := validators_never_crash 1 1000 0
    ⟨true, false, some ⟨3, some "cat", none⟩, none, some 10, false, false,
      0, none, none⟩
    ⟨true, some 5, some 9, some ⟨"u", "t", 3, true, 0, 4⟩⟩
    ⟨true, some ⟨false, false⟩, none⟩
    (by decide) (fun pr hpr => by cases hpr) (by decide) (by decide)
  exact ⟨h.1, h.2.2.2.1 rfl, h.2.2.2.2.2.1 ⟨true, some 5, some 9, none⟩ rfl⟩

/-- C5: the derived choice list is one empty option followed by exactly one
(identifier, title) pair per plan of the agreement that is active and
covers `now`; the pre-selected initial choice is the agreement's current
auto-applicable subscription when one exists, else the empty option. -/
theorem auto_apply_choice_field (plans : List SubscriptionPlan)
    (inst : CustomerAgreement) (now : Int) :
    (populate_subscription_for_auto_applied_licenses_choices plans inst now).choices.head? =
      some ("", "------") ∧
    (∀ c : String × String,
      c ∈ (populate_subscription_for_auto_applied_licenses_choices plans inst now).choices.tail ↔
      ∃ p, p ∈ plans ∧ p.customer_agreement = inst.id ∧ p.is_active = true ∧
        p.start_date ≤ now ∧ now ≤ p.expiration_date ∧ c = (p.uuid, p.title)) ∧
    (inst.auto_applicable_subscription = none →
      (populate_subscription_for_auto_applied_licenses_choices plans inst now).initial =
        ("", "------")) ∧
    (∀ cp, inst.auto_applicable_subscription = some cp →
      (populate_subscription_for_auto_applied_licenses_choices plans inst now).initial =
        (cp.uuid, cp.title)) := by
  refine ⟨rfl, ?_, ?_, ?_⟩
  · intro c
    unfold populate_subscription_for_auto_applied_licenses_choices
      planMatchesAutoApplyFilter
    simp only [List.tail_cons, List.mem_map, List.mem_filter, Bool.and_eq_true,
      decide_eq_true_eq]
    constructor
    · rintro ⟨p, ⟨hmem, ⟨⟨⟨h1, h2⟩, h3⟩, h4⟩⟩, hc⟩
      exact ⟨p, hmem, h1, h2, h3, h4, hc.symm⟩
    · rintro ⟨p, hmem, h1, h2, h3, h4, hc⟩
      exact ⟨p, ⟨hmem, ⟨⟨⟨h1, h2⟩, h3⟩, h4⟩⟩, hc.symm⟩
  · intro h
    unfold populate_subscription_for_auto_applied_licenses_choices
    rw [h]
  · intro cp h
    unfold populate_subscription_for_auto_applied_licenses_choices
    rw [h]

/-- Witness for C5: with one matching and one non-matching plan, the tail
holds exactly the matching plan's pair and the stored auto-applicable plan
is pre-selected. -/
theorem auto_apply_choice_field_witness :
    (("p1", "Plan One") ∈
      (populate_subscription_for_auto_applied_licenses_choices
        [⟨"p1", "Plan One", 3, true, 0, 10⟩, ⟨"p2", "Plan Two", 3, false, 0, 10⟩]
        ⟨3, none, some ⟨"p1", "Plan One", 3, true, 0, 10⟩⟩ 5).choices.tail) ∧
    (populate_subscription_for_auto_applied_licenses_choices
        [⟨"p1", "Plan One", 3, true, 0, 10⟩, ⟨"p2", "Plan Two", 3, false, 0, 10⟩]
        ⟨3, none, some ⟨"p1", "Plan One", 3, true, 0, 10⟩⟩ 5).initial =
      ("p1", "Plan One") :=
  ⟨((auto_apply_choice_field
      [⟨"p1", "Plan One", 3, true, 0, 10⟩, ⟨"p2", "Plan Two", 3, false, 0, 10⟩]
      ⟨3, none, some ⟨"p1", "Plan One", 3, true, 0, 10⟩⟩ 5).2.1
      ("p1", "Plan One")).mpr
      ⟨⟨"p1", "Plan One", 3, true, 0, 10⟩, by decide, rfl, rfl,
        by decide, by decide, rfl⟩,
    (auto_apply_choice_field
      [⟨"p1", "Plan One", 3, true, 0, 10⟩, ⟨"p2", "Plan Two", 3, false, 0, 10⟩]
      ⟨3, none, some ⟨"p1", "Plan One", 3, true, 0, 10⟩⟩ 5).2.2.2
      ⟨"p1", "Plan One", 3, true, 0, 10⟩ rfl⟩
